import Mathlib

/-
Shallow embedding of `exporter/cassandraexporter/exporter_logs.go` from
emreyalvac/opentelemetry-collector-contrib.

The Go file implements a Cassandra logs exporter:
  - `newLogsExporter` builds the exporter and opens the persistent session;
  - `initializeLogKernel` opens a transient admin session and issues the
    CREATE KEYSPACE / CREATE TABLE DDL statements;
  - `Start` runs `initializeLogKernel`;
  - `Shutdown` closes the session when one is open;
  - `pushLogsData` walks resource logs / scope logs / log records and issues
    one INSERT per record, logging (not propagating) per-row insert errors.

External effects (session creation, DDL execution, per-row inserts) are
modelled by explicit outcome oracles, and the side effects the code performs
are recorded as explicit event traces / log lists, so the control flow of the
Go source is captured faithfully.
-/

namespace Cassandra

/-- Exporter configuration, as read by `exporter_logs.go`: the fields of
`Config` that this file consumes (`cfg.DSN`, `cfg.Keyspace`, `cfg.LogsTable`,
`cfg.Compression.Algorithm`). -/
structure Config where
  dsn : String
  keyspace : String
  logsTable : String
  compressionAlgorithm : String
  deriving DecidableEq, Repr

/-- The only consistency level this source assigns: `gocql.Quorum`. -/
inductive Consistency where
  | quorum
  deriving DecidableEq, Repr

/-- The mutable `gocql.ClusterConfig` produced by `gocql.NewCluster(dsn)`.
A field holds `none` while this exporter's code has not assigned it (the
library default, untouched by the source). -/
structure ClusterConfig where
  dsn : String
  keyspace : Option String
  consistency : Option Consistency
  deriving DecidableEq, Repr

/-- `gocql.NewCluster(dsn)`: fresh cluster config; the exporter has assigned
neither keyspace nor consistency at this point. -/
def gocqlNewCluster (dsn : String) : ClusterConfig :=
  { dsn := dsn, keyspace := none, consistency := none }

/-- A `gocql.Session`: it snapshots the cluster configuration as it stood at
`CreateSession` time (later mutations of the `ClusterConfig` do not reach an
already-created session). -/
structure Session where
  keyspace : Option String
  consistency : Option Consistency
  deriving DecidableEq, Repr

/-- Observable side effects of the lifecycle functions, in program order. -/
inductive Event where
  | createPersistentSession
  | assignClusterKeyspace
  | assignClusterConsistency
  | createAdminSession
  | execKeyspaceDDL
  | execTableDDL
  | closeAdminSession
  | closePersistentSession
  deriving DecidableEq, Repr

/-- Result of `newLogsExporter`: the events it performed, the final cluster
config, the session held by the exporter (`none` when creation failed), and
the returned error. -/
structure NewExporterResult where
  events : List Event
  cluster : ClusterConfig
  session : Option Session
  err : Option String
  deriving DecidableEq, Repr

/-- `newLogsExporter(logger, cfg)` (exporter_logs.go lines 38-49):
`cluster := gocql.NewCluster(cfg.DSN)`, then `session, err :=
cluster.CreateSession()`, then — only after the session has been created —
`cluster.Keyspace = cfg.Keyspace` and `cluster.Consistency = gocql.Quorum`;
finally `err` is checked and the exporter (holding the session) returned.
`createSessionErr` is the outcome of `cluster.CreateSession()`. -/
def newLogsExporter (cfg : Config) (createSessionErr : Option String) :
    NewExporterResult :=
  let cluster0 := gocqlNewCluster cfg.dsn
  let session : Option Session :=
    match createSessionErr with
    | some _ => none
    | none => some { keyspace := cluster0.keyspace, consistency := cluster0.consistency }
  let cluster1 := { cluster0 with keyspace := some cfg.keyspace }
  let cluster2 := { cluster1 with consistency := some Consistency.quorum }
  let events := [Event.createPersistentSession, Event.assignClusterKeyspace,
    Event.assignClusterConsistency]
  match createSessionErr with
  | some e => { events := events, cluster := cluster2, session := none, err := some e }
  | none => { events := events, cluster := cluster2, session := session, err := none }

/-- Outcomes of the three external calls made by `initializeLogKernel`:
`cluster.CreateSession()`, the CREATE-KEYSPACE query and the CREATE-TABLE
query (`none` = success, `some e` = failure with error `e`). -/
structure InitOracle where
  adminSessionErr : Option String
  keyspaceDDLErr : Option String
  tableDDLErr : Option String
  deriving DecidableEq, Repr

/-- `initializeLogKernel(cfg)` (exporter_logs.go lines 51-72): create an admin
session (return its error on failure); exec the CREATE-KEYSPACE DDL (return
its error on failure); exec the CREATE-TABLE DDL (return its error on
failure); only then is `defer session.Close()` registered, so the admin
session is closed exactly on the path where both DDL statements succeeded;
return nil. The event trace records what was performed. -/
def initializeLogKernel (o : InitOracle) : List Event × Option String :=
  match o.adminSessionErr with
  | some e => ([Event.createAdminSession], some e)
  | none =>
    match o.keyspaceDDLErr with
    | some e => ([Event.createAdminSession, Event.execKeyspaceDDL], some e)
    | none =>
      match o.tableDDLErr with
      | some e =>
        ([Event.createAdminSession, Event.execKeyspaceDDL, Event.execTableDDL], some e)
      | none =>
        ([Event.createAdminSession, Event.execKeyspaceDDL, Event.execTableDDL,
          Event.closeAdminSession], none)

/-- `(e *logsExporter) Start(ctx, host)` (exporter_logs.go lines 74-77):
`initializeErr := initializeLogKernel(e.cfg); return initializeErr`. -/
def Start (o : InitOracle) : List Event × Option String :=
  initializeLogKernel o

/-- `(e *logsExporter) Shutdown(_)` (exporter_logs.go lines 79-85): if
`e.client != nil` close it; return nil. -/
def Shutdown (client : Option Session) : List Event × Option String :=
  match client with
  | some _ => ([Event.closePersistentSession], none)
  | none => ([], none)

/-- A `plog.LogRecord` as consumed by `pushLogsData`: timestamp, trace and
span ids as byte lists, flags, severity text and number, record attributes,
and `bodyJson`, the outcome of `json.Marshal(r.Body().AsRaw())` for this
record's body (`some s` = marshalling succeeded with bytes `s`; `none` =
marshalling failed, in which case Go's `json.Marshal` returns nil bytes and
`string(bodyByte)` is the empty string). -/
structure LogRecord where
  timestamp : Nat
  traceId : List Nat
  spanId : List Nat
  flags : Nat
  severityText : String
  severityNumber : Int
  bodyJson : Option String
  attrs : List (String × String)
  deriving DecidableEq, Repr

/-- A `plog.ScopeLogs` group: the list of its log records (scope identity is
not read by this exporter). -/
structure ScopeLogs where
  logRecords : List LogRecord
  deriving DecidableEq, Repr

/-- A resource: `serviceName` is the string value of the `service.name`
resource attribute when present (`res.Attributes().Get(AttributeServiceName)`),
and `attrs` is the raw resource attribute mapping. -/
structure Resource where
  serviceName : Option String
  attrs : List (String × String)
  deriving DecidableEq, Repr

/-- A `plog.ResourceLogs` group: its resource plus its scope-log groups. -/
structure ResourceLogs where
  resource : Resource
  scopeLogs : List ScopeLogs
  deriving DecidableEq, Repr

/-- Modelled from the spec: `attributesToMap` is defined elsewhere in the
cassandraexporter package and is not present under src/. Per the spec it is a
deterministic, never-failing conversion of the raw attribute mapping with the
same key set, and the source behavior passes the raw structured mapping
directly to the storage driver; it is therefore modelled as the identity on
the raw key/value list. -/
def attributesToMap (attrs : List (String × String)) : List (String × String) :=
  attrs

/-- Modelled from the spec: the hex digit alphabet used by
`traceutil.TraceIDToHexOrEmptyString` / `SpanIDToHexOrEmptyString`
(internal/coreinternal/traceutil, not present under src/): lowercase
hexadecimal, `0`-`9` then `a`-`f`. -/
def hexDigitChar (n : Nat) : Char :=
  if n < 10 then Char.ofNat (48 + n) else Char.ofNat (87 + n)

/-- One byte rendered as two lowercase hex digits, high nibble first. -/
def byteToHexChars (b : Nat) : List Char :=
  [hexDigitChar (b / 16), hexDigitChar (b % 16)]

/-- A byte sequence rendered as a lowercase hex string. -/
def bytesToHex (bs : List Nat) : String :=
  { data := (bs.map byteToHexChars).flatten }

/-- Modelled from the spec: `traceutil.TraceIDToHexOrEmptyString`
(internal/coreinternal/traceutil, not present under src/): an empty (all-zero)
trace id renders to the empty string, any other id to the lowercase hex
rendering of its bytes. -/
def traceIDToHexOrEmptyString (id : List Nat) : String :=
  if id.all (· == 0) then "" else bytesToHex id

/-- Modelled from the spec: `traceutil.SpanIDToHexOrEmptyString`
(internal/coreinternal/traceutil, not present under src/): same rendering as
for trace ids. -/
def spanIDToHexOrEmptyString (id : List Nat) : String :=
  if id.all (· == 0) then "" else bytesToHex id

/-- The ten bound parameters of one INSERT statement issued by
`pushLogsData` (exporter_logs.go lines 109-120), in source order. -/
structure Row where
  timestamp : Nat
  traceIdHex : String
  spanIdHex : String
  flags : Nat
  severityText : String
  severityNumber : Int
  serviceName : String
  body : String
  resAttr : List (String × String)
  logAttr : List (String × String)
  deriving DecidableEq, Repr

/-- The row built for one record in the inner loop of `pushLogsData`:
`serviceName` and `resAttr` come from the enclosing resource iteration, the
rest from the record; the body column is `string(bodyByte)`, which is the
empty string when `json.Marshal` failed (nil bytes). -/
def rowOfRecord (serviceName : String) (resAttr : List (String × String))
    (r : LogRecord) : Row :=
  { timestamp := r.timestamp
    traceIdHex := traceIDToHexOrEmptyString r.traceId
    spanIdHex := spanIDToHexOrEmptyString r.spanId
    flags := r.flags
    severityText := r.severityText
    severityNumber := r.severityNumber
    serviceName := serviceName
    body := r.bodyJson.getD ""
    resAttr := resAttr
    logAttr := attributesToMap r.attrs }

/-- The record loop (`for k`) of `pushLogsData`: one INSERT per record, the
insert outcome given by `oracle` at the running insert index; a failing
insert's error is logged (`e.logger.Error("insert log error", ...)`) and the
loop continues. Returns the rows whose insert was attempted (in order), the
logged insert errors (in order), and the next insert index. -/
def pushRecords (oracle : Nat → Option String) (serviceName : String)
    (resAttr : List (String × String)) :
    Nat → List LogRecord → List Row × List String × Nat
  | idx, [] => ([], [], idx)
  | idx, r :: rest =>
    let row := rowOfRecord serviceName resAttr r
    let p := pushRecords oracle serviceName resAttr (idx + 1) rest
    match oracle idx with
    | some e => (row :: p.1, e :: p.2.1, p.2.2)
    | none => (row :: p.1, p.2.1, p.2.2)

/-- The scope loop (`for j`) of `pushLogsData`. -/
def pushScopes (oracle : Nat → Option String) (serviceName : String)
    (resAttr : List (String × String)) :
    Nat → List ScopeLogs → List Row × List String × Nat
  | idx, [] => ([], [], idx)
  | idx, s :: rest =>
    let p1 := pushRecords oracle serviceName resAttr idx s.logRecords
    let p2 := pushScopes oracle serviceName resAttr p1.2.2 rest
    (p1.1 ++ p2.1, p1.2.1 ++ p2.2.1, p2.2.2)

/-- The resource loop (`for i`) of `pushLogsData`. The `serviceName` argument
threads the value of the `var serviceName string` variable, which the source
declares OUTSIDE this loop and overwrites only when the current resource has a
`service.name` attribute — a resource without one keeps the previous value. -/
def pushResourceLogs (oracle : Nat → Option String) :
    String → Nat → List ResourceLogs → List Row × List String × Nat
  | _, idx, [] => ([], [], idx)
  | serviceName, idx, rl :: rest =>
    let resAttr := attributesToMap rl.resource.attrs
    let serviceName' :=
      match rl.resource.serviceName with
      | some v => v
      | none => serviceName
    let p1 := pushScopes oracle serviceName' resAttr idx rl.scopeLogs
    let p2 := pushResourceLogs oracle serviceName' p1.2.2 rest
    (p1.1 ++ p2.1, p1.2.1 ++ p2.2.1, p2.2.2)

/-- `ld.LogRecordCount()`: the total number of log records in the batch. -/
def logRecordCount (ld : List ResourceLogs) : Nat :=
  (ld.map (fun rl => (rl.scopeLogs.map (fun s => s.logRecords.length)).sum)).sum

/-- Result of one `pushLogsData` call: the rows whose insert was attempted,
the per-row error log records, the debug log records (record count and
elapsed duration), and the returned error. -/
structure PushResult where
  rows : List Row
  errorLogs : List String
  debugLogs : List (Nat × Nat)
  err : Option String
  deriving DecidableEq, Repr

/-- `(e *logsExporter) pushLogsData(ctx, ld)` (exporter_logs.go lines 91-133):
`var serviceName string` (zero value: empty string), the three nested loops
issuing one INSERT per record with per-row errors logged and swallowed, then
one debug record `"insert logs"` with `ld.LogRecordCount()` and the elapsed
duration, then `return nil`. `duration` stands for the elapsed wall-clock
time observed by `time.Since(start)`. -/
def pushLogsData (oracle : Nat → Option String) (duration : Nat)
    (ld : List ResourceLogs) : PushResult :=
  let p := pushResourceLogs oracle "" 0 ld
  { rows := p.1
    errorLogs := p.2.1
    debugLogs := [(logRecordCount ld, duration)]
    err := none }

/-- The consecutive insert indices `idx, idx+1, ..., idx+n-1`. -/
def rangeFrom (idx : Nat) : Nat → List Nat
  | 0 => []
  | n + 1 => idx :: rangeFrom (idx + 1) n

/-- Total record count of a list of scope-log groups. -/
def scopesRecordCount (ss : List ScopeLogs) : Nat :=
  (ss.map (fun s => s.logRecords.length)).sum

lemma rangeFrom_append : ∀ (a idx b : Nat),
    rangeFrom idx (a + b) = rangeFrom idx a ++ rangeFrom (idx + a) b := by
  intro a
  induction a with
  | zero => intro idx b; simp [rangeFrom]
  | succ n ih =>
    intro idx b
    have h : n + 1 + b = (n + b) + 1 := by omega
    have h2 : idx + (n + 1) = (idx + 1) + n := by omega
    rw [h, h2]
    simp only [rangeFrom, List.cons_append]
    rw [ih]

lemma pushRecords_eq (oracle : Nat → Option String) (sn : String)
    (resAttr : List (String × String)) :
    ∀ (rs : List LogRecord) (idx : Nat),
    pushRecords oracle sn resAttr idx rs =
      (rs.map (rowOfRecord sn resAttr),
       (rangeFrom idx rs.length).filterMap oracle,
       idx + rs.length) := by
  intro rs
  induction rs with
  | nil => intro idx; simp [pushRecords, rangeFrom]
  | cons r rest ih =>
    intro idx
    simp only [pushRecords, ih (idx + 1), List.map_cons, List.length_cons,
      rangeFrom, List.filterMap_cons]
    cases h : oracle idx <;> simp [h] <;> omega

lemma pushScopes_eq (oracle : Nat → Option String) (sn : String)
    (resAttr : List (String × String)) :
    ∀ (ss : List ScopeLogs) (idx : Nat),
    pushScopes oracle sn resAttr idx ss =
      ((ss.map (fun s => s.logRecords.map (rowOfRecord sn resAttr))).flatten,
       (rangeFrom idx (scopesRecordCount ss)).filterMap oracle,
       idx + scopesRecordCount ss) := by
  intro ss
  induction ss with
  | nil => intro idx; simp [pushScopes, scopesRecordCount, rangeFrom]
  | cons s rest ih =>
    intro idx
    simp only [pushScopes, pushRecords_eq, ih]
    have hc : scopesRecordCount (s :: rest) =
        s.logRecords.length + scopesRecordCount rest := by
      simp [scopesRecordCount]
    rw [hc, rangeFrom_append, List.filterMap_append]
    simp
    omega

lemma pushResourceLogs_eq (oracle : Nat → Option String) :
    ∀ (rls : List ResourceLogs) (sn : String) (idx : Nat),
    (pushResourceLogs oracle sn idx rls).1.length = logRecordCount rls ∧
    (pushResourceLogs oracle sn idx rls).2.1 =
      (rangeFrom idx (logRecordCount rls)).filterMap oracle ∧
    (pushResourceLogs oracle sn idx rls).2.2 = idx + logRecordCount rls := by
  intro rls
  induction rls with
  | nil => intro sn idx; simp [pushResourceLogs, logRecordCount, rangeFrom]
  | cons rl rest ih =>
    intro sn idx
    have hc : logRecordCount (rl :: rest) =
        scopesRecordCount rl.scopeLogs + logRecordCount rest := by
      simp [logRecordCount, scopesRecordCount]
    set sn' := match rl.resource.serviceName with
      | some v => v
      | none => sn with hsn
    obtain ⟨ih1, ih2, ih3⟩ := ih sn' (idx + scopesRecordCount rl.scopeLogs)
    simp only [scopesRecordCount] at ih1 ih2 ih3
    simp only [pushResourceLogs, pushScopes_eq, ← hsn]
    rw [hc, rangeFrom_append, List.filterMap_append]
    refine ⟨?_, ?_, ?_⟩
    · simp [ih1, scopesRecordCount, Function.comp_def]
    · simp [ih2, scopesRecordCount]
    · simp [ih3, scopesRecordCount]
      omega

/-- Lowercase-hex-digit test: the character is one of `0`-`9` or `a`-`f`. -/
def isLowerHexChar (c : Char) : Bool :=
  (48 ≤ c.toNat && c.toNat ≤ 57) || (97 ≤ c.toNat && c.toNat ≤ 102)

/-- Value of a lowercase hex digit (left inverse of `hexDigitChar` on the
hex alphabet). -/
def hexCharVal (c : Char) : Nat :=
  if 97 ≤ c.toNat then c.toNat - 87 else c.toNat - 48

/-- Decode a hex character sequence back to bytes, two characters per byte,
high nibble first. -/
def hexCharsToBytes : List Char → List Nat
  | c1 :: c2 :: rest => (16 * hexCharVal c1 + hexCharVal c2) :: hexCharsToBytes rest
  | _ => []

lemma hexCharVal_hexDigitChar (n : Nat) (h : n < 16) :
    hexCharVal (hexDigitChar n) = n := by
  interval_cases n <;> decide

lemma isLowerHexChar_hexDigitChar (n : Nat) (h : n < 16) :
    isLowerHexChar (hexDigitChar n) = true := by
  interval_cases n <;> decide

lemma hexCharsToBytes_roundtrip : ∀ (bs : List Nat), (∀ b ∈ bs, b < 256) →
    hexCharsToBytes ((bs.map byteToHexChars).flatten) = bs := by
  intro bs
  induction bs with
  | nil => intro _; rfl
  | cons b rest ih =>
    intro h
    have hb : b < 256 := h b (List.mem_cons_self b rest)
    have h1 : b / 16 < 16 := by omega
    have h2 : b % 16 < 16 := by omega
    simp only [List.map_cons, List.flatten_cons, byteToHexChars,
      List.cons_append, List.nil_append, hexCharsToBytes]
    rw [hexCharVal_hexDigitChar _ h1, hexCharVal_hexDigitChar _ h2]
    congr 1
    · omega
    · exact ih (fun x hx => h x (List.mem_cons_of_mem b hx))

lemma bytesToHex_length (bs : List Nat) :
    (bytesToHex bs).length = 2 * bs.length := by
  show ((bs.map byteToHexChars).flatten).length = 2 * bs.length
  induction bs with
  | nil => rfl
  | cons b rest ih =>
    simp only [List.map_cons, List.flatten_cons, List.length_append, ih,
      byteToHexChars, List.length_cons, List.length_nil, List.length_map]
    omega

lemma bytesToHex_lower : ∀ (bs : List Nat), (∀ b ∈ bs, b < 256) →
    ((bs.map byteToHexChars).flatten).all isLowerHexChar = true := by
  intro bs
  induction bs with
  | nil => intro _; rfl
  | cons b rest ih =>
    intro h
    have hb : b < 256 := h b (List.mem_cons_self b rest)
    have h1 : b / 16 < 16 := by omega
    have h2 : b % 16 < 16 := by omega
    have ih' := ih (fun x hx => h x (List.mem_cons_of_mem b hx))
    simp [byteToHexChars, isLowerHexChar_hexDigitChar _ h1,
      isLowerHexChar_hexDigitChar _ h2, ih']

/-- A minimal concrete log record used to evaluate the embedding on concrete
batches. -/
def sampleRecord : LogRecord :=
  { timestamp := 1, traceId := [], spanId := [], flags := 0,
    severityText := "INFO", severityNumber := 9,
    bodyJson := some "hello", attrs := [] }

/-- A concrete record whose body failed to marshal to JSON. -/
def sampleBadBodyRecord : LogRecord :=
  { timestamp := 2, traceId := [1], spanId := [], flags := 0,
    severityText := "WARN", severityNumber := 13,
    bodyJson := none, attrs := [] }

/-- C1: for every input batch, every per-row insert outcome (the oracle) and
every elapsed duration, `pushLogsData` returns success (nil error); every
record's insert is attempted (one row per record) and each failing insert is
logged (the error log is exactly the failures the oracle produced over the
insert indices), so no row's insert failure is escalated to the caller as a
batch-level error — even when every individual insert fails. -/
theorem pushLogsData_always_succeeds (oracle : Nat → Option String)
    (duration : Nat) (ld : List ResourceLogs) :
    (pushLogsData oracle duration ld).err = none ∧
    (pushLogsData oracle duration ld).rows.length = logRecordCount ld ∧
    (pushLogsData oracle duration ld).errorLogs =
      (rangeFrom 0 (logRecordCount ld)).filterMap oracle := by
  obtain ⟨h1, h2, _⟩ := pushResourceLogs_eq oracle ld "" 0
  exact ⟨rfl, h1, h2⟩

/-- C3: `pushLogsData` issues exactly Σ Lrs insert statements — one per
LogRecord over all resources and scopes — for every batch, regardless of the
body-serialization outcome carried by each record and of insert failures. -/
theorem pushLogsData_one_insert_per_record (oracle : Nat → Option String)
    (duration : Nat) (ld : List ResourceLogs) :
    (pushLogsData oracle duration ld).rows.length =
      (ld.map (fun rl => (rl.scopeLogs.map (fun s => s.logRecords.length)).sum)).sum :=
  (pushResourceLogs_eq oracle ld "" 0).1

/-- C9: `Shutdown` closes the storage session when one is open and is a no-op
when no session exists; in both states it returns success (nil error). -/
theorem shutdown_never_fails (client : Option Session) :
    (Shutdown client).2 = none ∧
    (Shutdown client).1 =
      (if client.isSome then [Event.closePersistentSession] else []) := by
  cases client <;> simp [Shutdown]

/-- C10: on a batch with zero resource-log groups, `pushLogsData` attempts no
insert, logs no insert error, emits exactly one debug record carrying record
count zero and the elapsed duration, and returns success. -/
theorem pushLogsData_empty_batch (oracle : Nat → Option String)
    (duration : Nat) :
    pushLogsData oracle duration [] =
      { rows := [], errorLogs := [], debugLogs := [(0, duration)],
        err := none } :=
  rfl

/-- C4: the CREATE-TABLE DDL is attempted exactly when the admin session
opened and the CREATE-KEYSPACE DDL succeeded; `initializeLogKernel` — and
hence `Start`, which returns its result unchanged — succeeds exactly when the
admin session opened and both DDL statements succeeded (any failure is
returned at once); and each DDL statement is executed at most once per call
(no retry). -/
theorem initializeLogKernel_ddl_ordering (o : InitOracle) :
    (Event.execTableDDL ∈ (initializeLogKernel o).1 ↔
      o.adminSessionErr = none ∧ o.keyspaceDDLErr = none) ∧
    ((initializeLogKernel o).2 = none ↔
      o.adminSessionErr = none ∧ o.keyspaceDDLErr = none ∧
        o.tableDDLErr = none) ∧
    Start o = initializeLogKernel o ∧
    (initializeLogKernel o).1.count Event.execKeyspaceDDL ≤ 1 ∧
    (initializeLogKernel o).1.count Event.execTableDDL ≤ 1 := by
  obtain ⟨a, k, t⟩ := o
  cases a <;> cases k <;> cases t <;>
    simp [initializeLogKernel, Start, List.count_cons]

/-- C6: evaluation at the failing inputs — when the CREATE-KEYSPACE DDL fails
(and likewise when the CREATE-TABLE DDL fails), `initializeLogKernel` returns
the DDL error without ever closing the admin session, because the source
registers `defer session.Close()` only after both DDL error checks; the
session is closed only on the all-success path. -/
theorem initializeLogKernel_leaks_admin_session :
    (initializeLogKernel ⟨none, some "keyspace ddl failed", none⟩).1.count
      Event.closeAdminSession = 0 ∧
    (initializeLogKernel ⟨none, some "keyspace ddl failed", none⟩).2 =
      some "keyspace ddl failed" ∧
    (initializeLogKernel ⟨none, none, some "table ddl failed"⟩).1.count
      Event.closeAdminSession = 0 ∧
    (initializeLogKernel ⟨none, none, some "table ddl failed"⟩).2 =
      some "table ddl failed" ∧
    (initializeLogKernel ⟨none, none, none⟩).1.count
      Event.closeAdminSession = 1 := by
  decide

/-- C5 counterexample: on a run where every external call succeeds, the event
trace of `Start` contains no creation of the persistent storage session, so
the claim that `Start` opens the persistent storage session (before invoking
the Schema Initializer) is false: `Start` only runs the Schema Initializer. -/
theorem start_opens_no_session_cx :
    (Start ⟨none, none, none⟩).1.count Event.createPersistentSession = 0 ∧
    (Start ⟨none, none, none⟩).2 = none := by
  decide

/-- C5 (amended): the persistent storage session is opened by the constructor
`newLogsExporter`, not by `Start`; the constructor creates the session first
and assigns the cluster keyspace and the (hard-coded Quorum) consistency
level to the cluster config only afterwards, so the created session snapshots
neither assignment; `Start` performs no session creation and merely invokes
the Schema Initializer, failing exactly when it fails. -/
theorem newLogsExporter_opens_session (cfg : Config) (e : Option String)
    (o : InitOracle) :
    (newLogsExporter cfg e).events =
      [Event.createPersistentSession, Event.assignClusterKeyspace,
       Event.assignClusterConsistency] ∧
    (newLogsExporter cfg none).session =
      some { keyspace := none, consistency := none } ∧
    (newLogsExporter cfg e).cluster =
      { dsn := cfg.dsn, keyspace := some cfg.keyspace,
        consistency := some Consistency.quorum } ∧
    (newLogsExporter cfg e).err = e ∧
    (Start o).1.count Event.createPersistentSession = 0 ∧
    ((Start o).2 = none ↔ (initializeLogKernel o).2 = none) := by
  obtain ⟨a, k, t⟩ := o
  cases e <;> cases a <;> cases k <;> cases t <;>
    simp [newLogsExporter, gocqlNewCluster, Start, initializeLogKernel,
      List.count_cons]

/-- C2: evaluation at the failing input — a batch of two resource-log groups
where the first carries the service.name value "svc-a" and the second has no
service.name attribute at all: the second group's row is written with service
name "svc-a", inherited from the previously processed group, where the claim
requires the empty string. The source declares `var serviceName string`
outside the resource loop and only overwrites it when the attribute is
present, so it is never reset between groups. -/
theorem serviceName_leaks_across_groups :
    ((pushLogsData (fun _ => none) 0
        [{ resource := { serviceName := some "svc-a", attrs := [] },
           scopeLogs := [{ logRecords := [sampleRecord] }] },
         { resource := { serviceName := none, attrs := [] },
           scopeLogs := [{ logRecords := [sampleRecord] }] }]).rows.map
      Row.serviceName) = ["svc-a", "svc-a"] := by
  rfl

/-- C7: when `json.Marshal` of a record's body fails (`bodyJson = none`), that
record's row is still emitted, with the empty string as its body; every other
record's row is exactly the row built from its own record alone (rows are a
pointwise map over the records), so the failure affects no other record; and
`pushLogsData` still returns success. -/
theorem bodyFailure_degrades_to_empty (oracle : Nat → Option String)
    (sn : String) (resAttr : List (String × String)) (idx : Nat)
    (before after : List LogRecord) (r : LogRecord) (h : r.bodyJson = none) :
    (rowOfRecord sn resAttr r).body = "" ∧
    (pushRecords oracle sn resAttr idx (before ++ r :: after)).1 =
      before.map (rowOfRecord sn resAttr) ++
        rowOfRecord sn resAttr r :: after.map (rowOfRecord sn resAttr) ∧
    (∀ (duration : Nat) (ld : List ResourceLogs),
      (pushLogsData oracle duration ld).err = none) := by
  refine ⟨?_, ?_, fun _ _ => rfl⟩
  · simp [rowOfRecord, h]
  · rw [pushRecords_eq]
    simp

/-- Witness for the C7 theorem at a concrete batch: the middle record of three
has a failed body marshal, the insert oracle fails on every row. -/
theorem bodyFailure_degrades_to_empty_witness :
    (rowOfRecord "svc" [] sampleBadBodyRecord).body = "" ∧
    (pushRecords (fun _ => some "insert failed") "svc" [] 0
        ([sampleRecord] ++ sampleBadBodyRecord :: [sampleRecord])).1 =
      [sampleRecord].map (rowOfRecord "svc" []) ++
        rowOfRecord "svc" [] sampleBadBodyRecord ::
          [sampleRecord].map (rowOfRecord "svc" []) ∧
    (∀ (duration : Nat) (ld : List ResourceLogs),
      (pushLogsData (fun _ => some "insert failed") duration ld).err = none) :=
  bodyFailure_degrades_to_empty (fun _ => some "insert failed") "svc" [] 0
    [sampleRecord] [sampleRecord] sampleBadBodyRecord rfl

/-- C8: trace and span ids are rendered hex-or-empty into the row: an all-zero
(or empty) id renders to the empty string; any other id of N bytes renders to
a lowercase hex string of length 2N whose decoding reproduces the original
bytes; and every row built for a record carries exactly these renderings of
the record's trace and span ids — never a partial rendering. -/
theorem hexOrEmpty_id_rendering (id : List Nat) (h : ∀ b ∈ id, b < 256) :
    (id.all (· == 0) = true → traceIDToHexOrEmptyString id = "") ∧
    (id.all (· == 0) = false →
      (traceIDToHexOrEmptyString id).length = 2 * id.length ∧
      (traceIDToHexOrEmptyString id).data.all isLowerHexChar = true ∧
      hexCharsToBytes (traceIDToHexOrEmptyString id).data = id) ∧
    spanIDToHexOrEmptyString id = traceIDToHexOrEmptyString id ∧
    (∀ (sn : String) (resAttr : List (String × String)) (r : LogRecord),
      (rowOfRecord sn resAttr r).traceIdHex =
        traceIDToHexOrEmptyString r.traceId ∧
      (rowOfRecord sn resAttr r).spanIdHex =
        spanIDToHexOrEmptyString r.spanId) := by
  refine ⟨?_, ?_, ?_, fun sn a r => ⟨rfl, rfl⟩⟩
  · intro hz
    simp [traceIDToHexOrEmptyString, hz]
  · intro hz
    have he : traceIDToHexOrEmptyString id = bytesToHex id := by
      simp [traceIDToHexOrEmptyString, hz]
    rw [he]
    refine ⟨bytesToHex_length id, ?_, ?_⟩
    · show ((id.map byteToHexChars).flatten).all isLowerHexChar = true
      exact bytesToHex_lower id h
    · show hexCharsToBytes ((id.map byteToHexChars).flatten) = id
      exact hexCharsToBytes_roundtrip id h
  · simp [spanIDToHexOrEmptyString, traceIDToHexOrEmptyString]

/-- Witness for the C8 theorem at the concrete two-byte id `[0, 171]` (hex
rendering `00ab`). -/
theorem hexOrEmpty_id_rendering_witness :
    (([0, 171] : List Nat).all (· == 0) = true →
      traceIDToHexOrEmptyString [0, 171] = "") ∧
    (([0, 171] : List Nat).all (· == 0) = false →
      (traceIDToHexOrEmptyString [0, 171]).length =
        2 * ([0, 171] : List Nat).length ∧
      (traceIDToHexOrEmptyString [0, 171]).data.all isLowerHexChar = true ∧
      hexCharsToBytes (traceIDToHexOrEmptyString [0, 171]).data = [0, 171]) ∧
    spanIDToHexOrEmptyString [0, 171] = traceIDToHexOrEmptyString [0, 171] ∧
    (∀ (sn : String) (resAttr : List (String × String)) (r : LogRecord),
      (rowOfRecord sn resAttr r).traceIdHex =
        traceIDToHexOrEmptyString r.traceId ∧
      (rowOfRecord sn resAttr r).spanIdHex =
        spanIDToHexOrEmptyString r.spanId) :=
  hexOrEmpty_id_rendering [0, 171] (by decide)

end Cassandra
